import Mathlib

/-!
Shallow embedding of the similarity and ranking engine of the
`boats-shared-packages` repository, together with theorems settling the
spec's claims about it.

Sources embedded:
* `packages/core/src/utils/boatMatching.ts` — `calculateBoatSimilarity`,
  `findSimilarBoats` (namespace `BoatMatching`);
* `packages/core/src/utils/boat-matching.utils.ts` — `calculateBoatSimilarity`,
  `calculateDimensionSimilarity`, `findSimilarBoats` (namespace
  `BoatMatchingUtils`);
* `packages/core/src/utils/similarity.utils.ts` — `calculateJaccardSimilarity`,
  `calculateStringSimilarity`, `levenshteinDistance`,
  `calculateCosineSimilarity`, `calculateEuclideanDistance`
  (namespace `SimilarityUtils`);
* the TensorFlow service's `calculateCosineSimilarity` (namespace
  `TensorFlowService`) and the image-similarity module's
  `calculateCosineSimilarity` (namespace `ImageSimilarity`).

Modelling conventions: JavaScript numbers are modelled as exact rationals
(`ℚ`) where the code stays in field arithmetic, and as reals (`ℝ`) where the
code calls `Math.sqrt`; optional/absent attributes are `Option`; JavaScript
truthiness of an optional number (`undefined` and `0` falsy) and of an
optional string (`undefined` and `""` falsy) is made explicit; functions that
`throw` return `Option` with `none` for the thrown case.
-/

/-- JavaScript truthiness of an optional string: `undefined` and `""` are
falsy, every other string truthy. -/
def truthyStr : Option String → Bool
  | none => false
  | some s => s ≠ ""

/-- JavaScript truthiness of an optional number: `undefined` and `0` are
falsy (NaN does not arise in the embedded fragment). -/
def truthyNum : Option ℚ → Bool
  | none => false
  | some x => x ≠ 0

/-- JavaScript `s.includes(sub)`: `sub` occurs contiguously in `s`. -/
def jsIncludes (s sub : String) : Bool :=
  decide (sub.toList <:+: s.toList)

/-- JavaScript `Math.max` on two numbers (NaN does not arise in the embedded
fragment). -/
def jsMax (a b : ℚ) : ℚ := if a ≤ b then b else a

/-- JavaScript `Math.min` on two numbers. -/
def jsMin (a b : ℚ) : ℚ := if a ≤ b then a else b

/-- JavaScript `Math.abs`. -/
def jsAbs (a : ℚ) : ℚ := if a < 0 then -a else a

/-- The boat record, combining the optional attribute fields read by the two
similarity implementations (`models/boat`'s and `types`' Boat interfaces).
Every attribute the comparison code reads may be absent. -/
structure Boat where
  id : String
  name : Option String
  type : Option String
  length : Option ℚ
  features : Option (List String)
  engineType : Option String
  hullMaterial : Option String
  manufacturer : Option String
  model : Option String
  year : Option ℚ
  beam : Option ℚ
  draft : Option ℚ
  weight : Option ℚ
  categoryTags : Option (List String)
deriving DecidableEq

/-- A boat with every attribute absent and the given id; concrete test
records below override individual fields. -/
def blankBoat (i : String) : Boat :=
  ⟨i, none, none, none, none, none, none, none, none, none, none, none, none, none⟩

namespace BoatMatching

/-- `BoatMatchingConfig`: optional per-field weight overrides
(`debug` only logs and is dropped from the embedding). -/
structure BoatMatchingConfig where
  typeWeight : Option ℚ
  lengthWeight : Option ℚ
  featureWeight : Option ℚ
  engineTypeWeight : Option ℚ
  hullMaterialWeight : Option ℚ
  nameWeight : Option ℚ
deriving DecidableEq

/-- The empty configuration `{}` (every weight taken from the defaults). -/
def emptyConfig : BoatMatchingConfig := ⟨none, none, none, none, none, none⟩

/-- Fully resolved weights. -/
structure Weights where
  typeWeight : ℚ
  lengthWeight : ℚ
  featureWeight : ℚ
  engineTypeWeight : ℚ
  hullMaterialWeight : ℚ
  nameWeight : ℚ
deriving DecidableEq

/-- `DEFAULT_WEIGHTS` of `boatMatching.ts`. -/
def DEFAULT_WEIGHTS : Weights :=
  ⟨35/100, 25/100, 15/100, 10/100, 10/100, 5/100⟩

/-- `{ ...DEFAULT_WEIGHTS, ...config }`: a weight present in the config
overrides the default. -/
def resolveWeights (config : BoatMatchingConfig) : Weights :=
  ⟨config.typeWeight.getD DEFAULT_WEIGHTS.typeWeight,
   config.lengthWeight.getD DEFAULT_WEIGHTS.lengthWeight,
   config.featureWeight.getD DEFAULT_WEIGHTS.featureWeight,
   config.engineTypeWeight.getD DEFAULT_WEIGHTS.engineTypeWeight,
   config.hullMaterialWeight.getD DEFAULT_WEIGHTS.hullMaterialWeight,
   config.nameWeight.getD DEFAULT_WEIGHTS.nameWeight⟩

/-- Modelled from the spec: `normalizeBoatType` lives in the repository's
`models/boat` module, which is absent from the sources; the spec specifies
case-insensitive categorical matching, so the normalizer is modelled as
lowercasing. -/
def normalizeBoatType (s : String) : String := s.toLower

/-- Type-matching contribution (`scoreBreakdown.typeScore`): full weight on
equal normalized types, half weight when both normalized types contain the
same family keyword, else 0. `boat.type || ''` turns an absent type into
the empty string. -/
def typeScore (w : Weights) (boat1 boat2 : Boat) : ℚ :=
  let normalizedType1 := normalizeBoatType (boat1.type.getD "")
  let normalizedType2 := normalizeBoatType (boat2.type.getD "")
  if normalizedType1 = normalizedType2 then
    w.typeWeight
  else if (jsIncludes normalizedType1 "power" ∧ jsIncludes normalizedType2 "power")
       ∨ (jsIncludes normalizedType1 "sail" ∧ jsIncludes normalizedType2 "sail")
       ∨ (jsIncludes normalizedType1 "jet" ∧ jsIncludes normalizedType2 "jet")
       ∨ (jsIncludes normalizedType1 "cabin" ∧ jsIncludes normalizedType2 "cabin") then
    w.typeWeight / 2
  else 0

/-- Length-matching contribution (`scoreBreakdown.lengthScore`):
`max(0, lengthWeight − |l1−l2|/100)` when both lengths are truthy, else the
partial score `lengthWeight/3`. -/
def lengthScore (w : Weights) (boat1 boat2 : Boat) : ℚ :=
  if truthyNum boat1.length ∧ truthyNum boat2.length then
    let lengthDiff := jsAbs (boat1.length.getD 0 - boat2.length.getD 0)
    jsMax 0 (w.lengthWeight - lengthDiff / 100)
  else
    w.lengthWeight / 3

/-- Case-insensitive substring feature match:
`f.toLowerCase().includes(f2.toLowerCase()) || f2.toLowerCase().includes(f.toLowerCase())`. -/
def featureMatches (f f2 : String) : Bool :=
  jsIncludes f.toLower f2.toLower ∨ jsIncludes f2.toLower f.toLower

/-- Feature-matching contribution (`scoreBreakdown.featureScore`): the count
of `features1` entries matching some `features2` entry, over the larger list
size, times the feature weight; partial score `featureWeight/3` when either
list is empty (`boat.features || []`). -/
def featureScore (w : Weights) (boat1 boat2 : Boat) : ℚ :=
  let features1 := boat1.features.getD []
  let features2 := boat2.features.getD []
  if features1.length > 0 ∧ features2.length > 0 then
    let commonFeatures := features1.filter fun f => features2.any fun f2 => featureMatches f f2
    (commonFeatures.length : ℚ) / (max features1.length features2.length : ℕ) * w.featureWeight
  else
    w.featureWeight / 3

/-- Engine-type contribution (`scoreBreakdown.engineTypeScore`): full weight
on equal lowercased engine types, half weight on a shared family keyword,
0 otherwise; partial score `engineTypeWeight/3` when either side is falsy. -/
def engineTypeScore (w : Weights) (boat1 boat2 : Boat) : ℚ :=
  if truthyStr boat1.engineType ∧ truthyStr boat2.engineType then
    let engineType1 := (boat1.engineType.getD "").toLower
    let engineType2 := (boat2.engineType.getD "").toLower
    if engineType1 = engineType2 then
      w.engineTypeWeight
    else if (jsIncludes engineType1 "outboard" ∧ jsIncludes engineType2 "outboard")
         ∨ (jsIncludes engineType1 "inboard" ∧ jsIncludes engineType2 "inboard")
         ∨ (jsIncludes engineType1 "jet" ∧ jsIncludes engineType2 "jet") then
      w.engineTypeWeight / 2
    else 0
  else
    w.engineTypeWeight / 3

/-- Hull-material contribution (`scoreBreakdown.hullMaterialScore`): full
weight on equal lowercased materials, else 0; partial score
`hullMaterialWeight/3` when either side is falsy. -/
def hullMaterialScore (w : Weights) (boat1 boat2 : Boat) : ℚ :=
  if truthyStr boat1.hullMaterial ∧ truthyStr boat2.hullMaterial then
    if (boat1.hullMaterial.getD "").toLower = (boat2.hullMaterial.getD "").toLower then
      w.hullMaterialWeight
    else 0
  else
    w.hullMaterialWeight / 3

/-- JavaScript `str.split(/\s+/)`: pieces of the string between maximal
whitespace runs, keeping the empty piece a leading or trailing run
produces (`"".split` gives `[""]`). -/
def splitWS (cs : List Char) : List (List Char) :=
  let t := cs.takeWhile fun c => ¬ c.isWhitespace
  let r := cs.dropWhile fun c => ¬ c.isWhitespace
  match h : r with
  | [] => [t]
  | c :: rest =>
      t :: splitWS (rest.dropWhile Char.isWhitespace)
termination_by cs.length
decreasing_by
  have h1 : r.length ≤ cs.length :=
    (List.dropWhile_sublist _).length_le
  have h2 : (rest.dropWhile Char.isWhitespace).length ≤ rest.length :=
    (List.dropWhile_sublist _).length_le
  have h3 : r.length = rest.length + 1 := by rw [h]; simp
  omega

/-- Name-matching contribution (`scoreBreakdown.nameScore`): common
lowercased words longer than two characters over the larger word count,
capped at the name weight; partial score `nameWeight/4` when either name is
falsy. -/
def nameScore (w : Weights) (boat1 boat2 : Boat) : ℚ :=
  if truthyStr boat1.name ∧ truthyStr boat2.name then
    let name1Words := (splitWS (boat1.name.getD "").toLower.toList).map List.asString
    let name2Words := (splitWS (boat2.name.getD "").toLower.toList).map List.asString
    let commonWords := name1Words.filter fun word =>
      name2Words.contains word ∧ word.length > 2
    if commonWords.length > 0 then
      jsMin w.nameWeight
        ((commonWords.length : ℚ) / (max name1Words.length name2Words.length : ℕ) * w.nameWeight)
    else 0
  else
    w.nameWeight / 4

/-- `calculateBoatSimilarity` of `boatMatching.ts`: the sum of the six
per-field contributions, clamped to `[0,1]` by
`Math.max(0, Math.min(1, similarity))`. -/
def calculateBoatSimilarity (boat1 boat2 : Boat) (config : BoatMatchingConfig) : ℚ :=
  let weights := resolveWeights config
  let similarity :=
    typeScore weights boat1 boat2 +
    lengthScore weights boat1 boat2 +
    featureScore weights boat1 boat2 +
    engineTypeScore weights boat1 boat2 +
    hullMaterialScore weights boat1 boat2 +
    nameScore weights boat1 boat2
  jsMax 0 (jsMin 1 similarity)

end BoatMatching

/-- A stable insertion step for a descending sort: `x` is placed before the
first element whose key is not greater than `x`'s. JavaScript's
`Array.prototype.sort` is required to be stable, and both call sites sort
with the comparator `(a, b) => keyOf(b) - keyOf(a)`, i.e. descending by key
with ties kept in input order; a stable insertion sort realizes exactly
that ordering. -/
def insertDescBy {α β : Type} [LinearOrder β] (key : α → β) (x : α) : List α → List α
  | [] => [x]
  | y :: ys => if key x < key y then y :: insertDescBy key x ys else x :: y :: ys

/-- Stable descending sort by `key` (the model of
`arr.sort((a, b) => key(b) - key(a))`). -/
def sortDescBy {α β : Type} [LinearOrder β] (key : α → β) : List α → List α
  | [] => []
  | x :: xs => insertDescBy key x (sortDescBy key xs)

namespace BoatMatching

/-- A pool boat together with its `matchPercentage` field
(`{ ...boat, matchPercentage: Math.floor(similarity * 100) }`). -/
structure ScoredBoat where
  boat : Boat
  matchPercentage : ℤ
deriving DecidableEq

/-- The scored candidate list built by `findSimilarBoats`: pool boats other
than the target, each with `Math.floor(similarity * 100)`. -/
def scoredBoats (targetBoat : Boat) (boatPool : List Boat) (config : BoatMatchingConfig) :
    List ScoredBoat :=
  (boatPool.filter fun boat => boat.id ≠ targetBoat.id).map fun boat =>
    ⟨boat, ⌊calculateBoatSimilarity targetBoat boat config * 100⌋⟩

/-- `findSimilarBoats` of `boatMatching.ts`: empty pool returns `[]`;
otherwise score, sort descending by `matchPercentage`, take the first
`limit` (the JavaScript default for `limit` is 3). -/
def findSimilarBoats (targetBoat : Boat) (boatPool : List Boat)
    (config : BoatMatchingConfig) (limit : ℕ) : List ScoredBoat :=
  if boatPool.isEmpty then []
  else
    let boatsWithScores := scoredBoats targetBoat boatPool config
    (sortDescBy (fun sb => sb.matchPercentage) boatsWithScores).take limit

end BoatMatching

namespace SimilarityUtils

/-- `levenshteinDistance` of `similarity.utils.ts`. The source fills the
dynamic-programming matrix `dp[i][j] = if eq then dp[i-1][j-1] else
1 + min(dp[i-1][j], dp[i][j-1], dp[i-1][j-1])` with first row/column `i`
and `j`; this is that recurrence written as structural recursion on the two
character lists. -/
def levenshteinDistance : List Char → List Char → ℕ
  | [], ys => ys.length
  | x :: xs, [] => (x :: xs).length
  | x :: xs, y :: ys =>
      if x = y then levenshteinDistance xs ys
      else 1 + min (levenshteinDistance xs (y :: ys))
                   (min (levenshteinDistance (x :: xs) ys) (levenshteinDistance xs ys))
termination_by xs ys => xs.length + ys.length
decreasing_by all_goals (simp; try omega)

/-- `calculateStringSimilarity`: 1 on identical strings, otherwise
`1 − levenshtein(lower s1, lower s2) / max(len1, len2)` with the both-empty
guard returning 1. -/
def calculateStringSimilarity (str1 str2 : String) : ℚ :=
  if str1 = str2 then 1
  else
    let s1 := str1.toLower
    let s2 := str2.toLower
    let distance := levenshteinDistance s1.toList s2.toList
    let maxLength := max s1.toList.length s2.toList.length
    if maxLength = 0 then 1
    else 1 - (distance : ℚ) / maxLength

/-- `calculateJaccardSimilarity`: the inputs are deduplicated into sets
(`new Set(array)`), both-empty returns 1, otherwise
`|s1 ∩ s2| / |s1 ∪ s2|`. -/
def calculateJaccardSimilarity {α : Type} [DecidableEq α] (set1 set2 : List α) : ℚ :=
  let s1 := set1.toFinset
  let s2 := set2.toFinset
  if s1.card = 0 ∧ s2.card = 0 then 1
  else ((s1 ∩ s2).card : ℚ) / ((s1 ∪ s2).card : ℚ)

/-- The loop `dotProduct += vector1[i] * vector2[i]`. -/
def dotProduct : List ℝ → List ℝ → ℝ
  | a :: as, b :: bs => a * b + dotProduct as bs
  | _, _ => 0

/-- The loop `magnitude += v[i] * v[i]` (the squared magnitude before
`Math.sqrt`). -/
def sumSquares : List ℝ → ℝ
  | [] => 0
  | a :: as => a * a + sumSquares as

/-- `calculateCosineSimilarity` of `similarity.utils.ts`: `none` models the
thrown length-mismatch error; zero magnitude on either side returns 0; the
returned score is the raw cosine `dot / (|v1| * |v2|)` (not remapped). -/
noncomputable def calculateCosineSimilarity (vector1 vector2 : List ℝ) : Option ℝ :=
  if vector1.length ≠ vector2.length then none
  else
    let magnitude1 := Real.sqrt (sumSquares vector1)
    let magnitude2 := Real.sqrt (sumSquares vector2)
    if magnitude1 = 0 ∨ magnitude2 = 0 then some 0
    else some (dotProduct vector1 vector2 / (magnitude1 * magnitude2))

/-- `calculateEuclideanDistance` of `similarity.utils.ts`: `none` on length
mismatch, otherwise the square root of the summed squared differences. -/
noncomputable def calculateEuclideanDistance (vector1 vector2 : List ℝ) : Option ℝ :=
  if vector1.length ≠ vector2.length then none
  else some (Real.sqrt (sumSquares (List.zipWith (fun a b => a - b) vector1 vector2)))

end SimilarityUtils

namespace TensorFlowService

/-- `TensorFlowService.calculateCosineSimilarity`: as the utility version but
the cosine is remapped to `[0,1]` by `(similarity + 1) / 2`; the
zero-magnitude guard still returns plain 0. -/
noncomputable def calculateCosineSimilarity (features1 features2 : List ℝ) : Option ℝ :=
  if features1.length ≠ features2.length then none
  else
    let magnitude1 := Real.sqrt (SimilarityUtils.sumSquares features1)
    let magnitude2 := Real.sqrt (SimilarityUtils.sumSquares features2)
    if magnitude1 = 0 ∨ magnitude2 = 0 then some 0
    else
      let similarity := SimilarityUtils.dotProduct features1 features2 / (magnitude1 * magnitude2)
      some ((similarity + 1) / 2)

/-- `TensorFlowService.calculateEuclideanDistance`: `none` on length
mismatch, otherwise the L2 distance. -/
noncomputable def calculateEuclideanDistance (features1 features2 : List ℝ) : Option ℝ :=
  if features1.length ≠ features2.length then none
  else some (Real.sqrt (SimilarityUtils.sumSquares (List.zipWith (fun a b => a - b) features1 features2)))

end TensorFlowService

namespace ImageSimilarity

/-- The image-similarity module's `calculateCosineSimilarity`: identical in
behaviour to the `similarity.utils.ts` version (raw cosine, zero-magnitude
guard 0, length mismatch thrown). -/
noncomputable def calculateCosineSimilarity (features1 features2 : List ℝ) : Option ℝ :=
  if features1.length ≠ features2.length then none
  else
    let magnitude1 := Real.sqrt (SimilarityUtils.sumSquares features1)
    let magnitude2 := Real.sqrt (SimilarityUtils.sumSquares features2)
    if magnitude1 = 0 ∨ magnitude2 = 0 then some 0
    else some (SimilarityUtils.dotProduct features1 features2 / (magnitude1 * magnitude2))

end ImageSimilarity

namespace BoatMatchingUtils

/-- Manufacturer branch of `boat-matching.utils.ts`'s
`calculateBoatSimilarity`: contribution to `(totalScore, totalWeight)`,
weight 0.15, string similarity on the two values. -/
def manufacturerTerm (boat1 boat2 : Boat) : ℚ × ℚ :=
  if truthyStr boat1.manufacturer ∧ truthyStr boat2.manufacturer then
    (SimilarityUtils.calculateStringSimilarity (boat1.manufacturer.getD "") (boat2.manufacturer.getD "")
       * (15/100), 15/100)
  else (0, 0)

/-- Model branch, weight 0.20. -/
def modelTerm (boat1 boat2 : Boat) : ℚ × ℚ :=
  if truthyStr boat1.model ∧ truthyStr boat2.model then
    (SimilarityUtils.calculateStringSimilarity (boat1.model.getD "") (boat2.model.getD "")
       * (20/100), 20/100)
  else (0, 0)

/-- Year branch, weight 0.05: `max(0, 1 − |y1−y2|/5)`. -/
def yearTerm (boat1 boat2 : Boat) : ℚ × ℚ :=
  if truthyNum boat1.year ∧ truthyNum boat2.year then
    (jsMax 0 (1 - jsAbs (boat1.year.getD 0 - boat2.year.getD 0) / 5) * (5/100), 5/100)
  else (0, 0)

/-- One dimension comparison inside `calculateDimensionSimilarity`:
`min/max` ratio and a count of 1 when both sides are truthy. -/
def ratioTerm (a b : Option ℚ) : ℚ × ℕ :=
  if truthyNum a ∧ truthyNum b then
    (jsMin (a.getD 0) (b.getD 0) / jsMax (a.getD 0) (b.getD 0), 1)
  else (0, 0)

/-- `calculateDimensionSimilarity`: the average of the comparable
`length`/`beam`/`draft`/`weight` ratios, `none` when no dimension is
comparable. -/
def calculateDimensionSimilarity (boat1 boat2 : Boat) : Option ℚ :=
  let l := ratioTerm boat1.length boat2.length
  let b := ratioTerm boat1.beam boat2.beam
  let d := ratioTerm boat1.draft boat2.draft
  let w := ratioTerm boat1.weight boat2.weight
  let comparableDimensions := l.2 + b.2 + d.2 + w.2
  let totalDimensionScore := l.1 + b.1 + d.1 + w.1
  if comparableDimensions > 0 then some (totalDimensionScore / (comparableDimensions : ℚ))
  else none

/-- Dimensions branch, weight 0.15, applied only when
`calculateDimensionSimilarity` is non-null. -/
def dimensionsTerm (boat1 boat2 : Boat) : ℚ × ℚ :=
  match calculateDimensionSimilarity boat1 boat2 with
  | some dimensionScore => (dimensionScore * (15/100), 15/100)
  | none => (0, 0)

/-- Features branch, weight 0.25: Jaccard similarity; an array is truthy in
JavaScript even when empty, so presence (not emptiness) is tested. -/
def featuresTerm (boat1 boat2 : Boat) : ℚ × ℚ :=
  if boat1.features.isSome ∧ boat2.features.isSome then
    (SimilarityUtils.calculateJaccardSimilarity (boat1.features.getD []) (boat2.features.getD [])
       * (25/100), 25/100)
  else (0, 0)

/-- Category-tags branch, weight 0.20: Jaccard similarity. -/
def categoryTerm (boat1 boat2 : Boat) : ℚ × ℚ :=
  if boat1.categoryTags.isSome ∧ boat2.categoryTags.isSome then
    (SimilarityUtils.calculateJaccardSimilarity (boat1.categoryTags.getD []) (boat2.categoryTags.getD [])
       * (20/100), 20/100)
  else (0, 0)

/-- `calculateBoatSimilarity` of `boat-matching.utils.ts`: the six branch
contributions accumulated into `totalScore` and `totalWeight`, normalized by
the applicable weight, 0 when nothing was comparable. -/
def calculateBoatSimilarity (boat1 boat2 : Boat) : ℚ :=
  let m := manufacturerTerm boat1 boat2
  let mo := modelTerm boat1 boat2
  let y := yearTerm boat1 boat2
  let d := dimensionsTerm boat1 boat2
  let f := featuresTerm boat1 boat2
  let c := categoryTerm boat1 boat2
  let totalScore := m.1 + mo.1 + y.1 + d.1 + f.1 + c.1
  let totalWeight := m.2 + mo.2 + y.2 + d.2 + f.2 + c.2
  if totalWeight > 0 then totalScore / totalWeight else 0

/-- A dataset boat paired with its similarity score
(`{ boat, similarityScore }`). -/
structure SimilarityResult where
  boat : Boat
  similarityScore : ℚ
deriving DecidableEq

/-- `findSimilarBoats` of `boat-matching.utils.ts`: score every dataset boat
other than the reference, keep scores at or above the threshold, sort
descending, take the first `limit` (JavaScript defaults: threshold 0.7,
limit 10). -/
def findSimilarBoats (referenceBoat : Boat) (boatDataset : List Boat)
    (similarityThreshold : ℚ) (limit : ℕ) : List SimilarityResult :=
  let similarityResults :=
    ((boatDataset.filter fun boat => boat.id ≠ referenceBoat.id).map fun boat =>
      (⟨boat, calculateBoatSimilarity referenceBoat boat⟩ : SimilarityResult)).filter
        fun result => result.similarityScore ≥ similarityThreshold
  (sortDescBy (fun r => r.similarityScore) similarityResults).take limit

end BoatMatchingUtils

namespace SpecModel

/-- Modelled from the spec: the §4.3 weighted aggregation the claims ascribe
to the code, instantiated with `boat-matching.utils.ts`'s weight table and
the default `uncertaintyFraction = 1/3`. Each configured field contributes
`comparatorScore × weight` when both sides are present and
`weight × 1/3` when either side is absent, and its full weight always counts
in the denominator. Present/absent and the per-field comparators follow the
source's field kinds (text for manufacturer/model, numeric for year,
ratio for dimensions, Jaccard for features and category tags). -/
def claimedSimilarity (boat1 boat2 : Boat) : ℚ :=
  let m := if truthyStr boat1.manufacturer ∧ truthyStr boat2.manufacturer then
      SimilarityUtils.calculateStringSimilarity (boat1.manufacturer.getD "") (boat2.manufacturer.getD "")
        * (15/100)
    else (15/100) * (1/3)
  let mo := if truthyStr boat1.model ∧ truthyStr boat2.model then
      SimilarityUtils.calculateStringSimilarity (boat1.model.getD "") (boat2.model.getD "") * (20/100)
    else (20/100) * (1/3)
  let y := if truthyNum boat1.year ∧ truthyNum boat2.year then
      jsMax 0 (1 - jsAbs (boat1.year.getD 0 - boat2.year.getD 0) / 5) * (5/100)
    else (5/100) * (1/3)
  let d := match BoatMatchingUtils.calculateDimensionSimilarity boat1 boat2 with
    | some dimensionScore => dimensionScore * (15/100)
    | none => (15/100) * (1/3)
  let f := if boat1.features.isSome ∧ boat2.features.isSome then
      SimilarityUtils.calculateJaccardSimilarity (boat1.features.getD []) (boat2.features.getD [])
        * (25/100)
    else (25/100) * (1/3)
  let c := if boat1.categoryTags.isSome ∧ boat2.categoryTags.isSome then
      SimilarityUtils.calculateJaccardSimilarity (boat1.categoryTags.getD []) (boat2.categoryTags.getD [])
        * (20/100)
    else (20/100) * (1/3)
  (m + mo + y + d + f + c) / (15/100 + 20/100 + 5/100 + 15/100 + 25/100 + 20/100)

end SpecModel

/-! Concrete records used by the worked example, the counterexamples and the
witnesses. -/

/-- Entity A of the spec's worked example. -/
def boatA : Boat :=
  { blankBoat "a" with type := some "Yacht", length := some 42, features := some ["GPS", "Radar"] }

/-- Entity B of the spec's worked example. -/
def boatB : Boat :=
  { blankBoat "b" with type := some "Yacht", length := some 40, features := some ["GPS", "Sonar"] }

/-- The worked example's weight configuration: type 0.35, length 0.25,
features 0.15 (the remaining weights keep their defaults — the
implementation merges the configuration over `DEFAULT_WEIGHTS`). -/
def c1config : BoatMatching.BoatMatchingConfig :=
  ⟨some (35/100), some (25/100), some (15/100), none, none, none⟩

/-- A boat whose features each contain or are contained in a feature of
`boatF2`. -/
def boatF1 : Boat := { blankBoat "1" with features := some ["a", "ab"] }

/-- A boat with the single feature "ab". -/
def boatF2 : Boat := { blankBoat "2" with features := some ["ab"] }

/-- A boat with only a manufacturer. -/
def boatM1 : Boat := { blankBoat "m1" with manufacturer := some "abc" }

/-- A second boat with the same manufacturer and nothing else. -/
def boatM2 : Boat := { blankBoat "m2" with manufacturer := some "abc" }

/-- A query boat for the ranking examples. -/
def refBoat : Boat := { blankBoat "q" with manufacturer := some "zzz" }

/-- Pool candidate with id "1", identical to `poolB` except for the id. -/
def poolA : Boat := { blankBoat "1" with manufacturer := some "zzz" }

/-- Pool candidate with id "2", identical to `poolA` except for the id. -/
def poolB : Boat := { blankBoat "2" with manufacturer := some "zzz" }

/-- A pool boat carrying the query's id "q". -/
def qDup : Boat := blankBoat "q"

/-- Validity of a boat record's physical dimensions: none of
length/beam/draft/weight is negative (absent dimensions are unconstrained). -/
def nonnegDims (b : Boat) : Prop :=
  0 ≤ b.length.getD 0 ∧ 0 ≤ b.beam.getD 0 ∧ 0 ≤ b.draft.getD 0 ∧ 0 ≤ b.weight.getD 0

/-! Lemmas about the stable descending sort. -/

theorem mem_insertDescBy {α β : Type} [LinearOrder β] (key : α → β) (x a : α) (l : List α) :
    a ∈ insertDescBy key x l ↔ a = x ∨ a ∈ l := by
  induction l with
  | nil => simp [insertDescBy]
  | cons y ys ih =>
      by_cases h : key x < key y
      · simp [insertDescBy, h, ih]
        tauto
      · simp [insertDescBy, h]

theorem mem_sortDescBy {α β : Type} [LinearOrder β] (key : α → β) (a : α) (l : List α) :
    a ∈ sortDescBy key l ↔ a ∈ l := by
  induction l with
  | nil => simp [sortDescBy]
  | cons y ys ih => simp [sortDescBy, mem_insertDescBy, ih]

theorem length_insertDescBy {α β : Type} [LinearOrder β] (key : α → β) (x : α) (l : List α) :
    (insertDescBy key x l).length = l.length + 1 := by
  induction l with
  | nil => simp [insertDescBy]
  | cons y ys ih =>
      by_cases h : key x < key y <;> simp [insertDescBy, h, ih]

theorem length_sortDescBy {α β : Type} [LinearOrder β] (key : α → β) (l : List α) :
    (sortDescBy key l).length = l.length := by
  induction l with
  | nil => rfl
  | cons y ys ih => simp [sortDescBy, length_insertDescBy, ih]

theorem pairwise_insertDescBy {α β : Type} [LinearOrder β] (key : α → β) (x : α) {l : List α}
    (h : l.Pairwise fun a b => key b ≤ key a) :
    (insertDescBy key x l).Pairwise fun a b => key b ≤ key a := by
  induction l with
  | nil => simp [insertDescBy]
  | cons y ys ih =>
      rcases List.pairwise_cons.mp h with ⟨hy, hys⟩
      by_cases hxy : key x < key y
      · rw [insertDescBy, if_pos hxy]
        refine List.pairwise_cons.mpr ⟨?_, ih hys⟩
        intro z hz
        rcases (mem_insertDescBy key x z ys).mp hz with rfl | hz
        · exact hxy.le
        · exact hy z hz
      · rw [insertDescBy, if_neg hxy]
        refine List.pairwise_cons.mpr ⟨?_, h⟩
        intro z hz
        rcases List.mem_cons.mp hz with rfl | hz
        · exact le_of_not_lt hxy
        · exact (hy z hz).trans (le_of_not_lt hxy)

theorem pairwise_sortDescBy {α β : Type} [LinearOrder β] (key : α → β) (l : List α) :
    (sortDescBy key l).Pairwise fun a b => key b ≤ key a := by
  induction l with
  | nil => exact List.Pairwise.nil
  | cons y ys ih => exact pairwise_insertDescBy key y ih

theorem filter_insertDescBy {α β : Type} [LinearOrder β] (key : α → β) (x : α) (l : List α)
    (s : β) :
    (insertDescBy key x l).filter (fun y => key y = s)
      = if key x = s then x :: l.filter (fun y => key y = s)
        else l.filter (fun y => key y = s) := by
  induction l with
  | nil => by_cases h : key x = s <;> simp [insertDescBy, h]
  | cons y ys ih =>
      rw [insertDescBy]
      by_cases hxy : key x < key y
      · rw [if_pos hxy]
        by_cases hy : key y = s
        · have hxs : ¬ key x = s := fun he => (ne_of_lt hxy) (he.trans hy.symm)
          simp [List.filter_cons, hy, hxs, ih]
        · by_cases hxs : key x = s <;> simp [List.filter_cons, hy, hxs, ih]
      · rw [if_neg hxy]
        by_cases hxs : key x = s <;> simp [List.filter_cons, hxs]


theorem filter_sortDescBy {α β : Type} [LinearOrder β] (key : α → β) (s : β) (l : List α) :
    (sortDescBy key l).filter (fun y => key y = s) = l.filter (fun y => key y = s) := by
  induction l with
  | nil => rfl
  | cons y ys ih =>
      rw [sortDescBy, filter_insertDescBy]
      by_cases hy : key y = s <;> simp [List.filter_cons, hy, ih]

/-! Claim theorems. -/

/-- C1 (counterexample): on the spec's worked example the implementation
does not return `(0.35 + 0.245 + 0.05) / 0.75 = 0.86`: the length score is
`max(0, 0.25 − 2/100) = 0.23` rather than `(1 − 2/100)×0.25`, the feature
score is a substring-match count over the larger list size
(`1/2 × 0.15 = 0.075`) rather than a Jaccard third, absent fields add
partial scores, and no division by the applied weight happens. -/
theorem worked_example_counterexample :
    BoatMatching.calculateBoatSimilarity boatA boatB c1config ≠ 43/50 := by
  have h : BoatMatching.calculateBoatSimilarity boatA boatB c1config = 881/1200 := by
    with_unfolding_all rfl
  rw [h]
  norm_num

/-- C1 (amended): on the worked example entities and weights, the
implementation returns type `0.35`, length `max(0, 0.25 − 2/100) = 0.23`,
features `(1/2)×0.15 = 0.075`, plus the absent-field partial scores
`0.10/3` (engine type), `0.10/3` (hull material) and `0.05/4` (name), an
unnormalized sum of `881/1200 ≈ 0.734`. -/
theorem worked_example_value :
    BoatMatching.calculateBoatSimilarity boatA boatB c1config = 881/1200 := by
  with_unfolding_all rfl

/-- C3 (counterexample): `calculateBoatSimilarity` of `boatMatching.ts` is
not symmetric: with features `["a", "ab"]` against `["ab"]` the substring
match counts 2 of 2 features one way (score 0.6625) but 1 of 2 the other
way (score 0.5875). -/
theorem symmetry_counterexample :
    BoatMatching.calculateBoatSimilarity boatF1 boatF2 BoatMatching.emptyConfig
      ≠ BoatMatching.calculateBoatSimilarity boatF2 boatF1 BoatMatching.emptyConfig := by
  with_unfolding_all decide

/-- C4 (counterexample): for two boats sharing only a manufacturer, the
implementation returns 1 (absent fields are dropped from numerator and
denominator), while the claimed uncertainty aggregation
(absent field → `weight × 1/3` with full weight in the denominator) yields
`13/30`. -/
theorem missing_policy_counterexample :
    BoatMatchingUtils.calculateBoatSimilarity boatM1 boatM2
      ≠ SpecModel.claimedSimilarity boatM1 boatM2 := by
  with_unfolding_all decide

/-- C5 (counterexample): two equal-scoring candidates are returned in
candidate-pool order ("2" before "1"), not ascending id order, because the
sort has no id tie-break. -/
theorem tie_order_counterexample :
    (BoatMatchingUtils.findSimilarBoats refBoat [poolB, poolA] (7/10) 10).map
        (fun r => r.boat.id) = ["2", "1"]
      ∧ (["2", "1"] : List String) ≠ ["1", "2"] := by
  constructor
  · with_unfolding_all rfl
  · decide

/-- C8 (counterexample): calling the top-K search with an empty candidate
pool returns the empty result list — no `ValidationError` is raised
(`boatMatching.ts` short-circuits on an empty pool, `boat-matching.utils.ts`
simply maps over the empty dataset). -/
theorem empty_pool_counterexample :
    BoatMatching.findSimilarBoats boatA [] c1config 3 = []
      ∧ BoatMatchingUtils.findSimilarBoats refBoat [] (7/10) 10 = [] := by
  constructor
  · with_unfolding_all rfl
  · with_unfolding_all rfl

/-- C8 (amended): for every target, configuration and limit, the top-K
search on an empty candidate pool returns the empty list rather than
failing. -/
theorem empty_pool_returns_empty :
    (∀ (targetBoat : Boat) (config : BoatMatching.BoatMatchingConfig) (limit : ℕ),
       BoatMatching.findSimilarBoats targetBoat [] config limit = [])
    ∧ ∀ (referenceBoat : Boat) (similarityThreshold : ℚ) (limit : ℕ),
        BoatMatchingUtils.findSimilarBoats referenceBoat [] similarityThreshold limit = [] := by
  constructor
  · intro targetBoat config limit
    rfl
  · intro referenceBoat similarityThreshold limit
    simp [BoatMatchingUtils.findSimilarBoats, sortDescBy]

/-- C5 (amended): the top-K results are sorted descending by score, and
equal-score candidates appear in candidate-pool order (both sorts are
stable and have no id tie-break); determinism across runs holds because the
search is a pure function of its input. The stability part is stated for
`boatMatching.ts`'s search whenever the limit does not truncate. -/
theorem ranking_sorted_and_stable :
    (∀ (targetBoat : Boat) (boatPool : List Boat) (config : BoatMatching.BoatMatchingConfig)
       (limit : ℕ),
       (BoatMatching.findSimilarBoats targetBoat boatPool config limit).Pairwise
         fun a b => b.matchPercentage ≤ a.matchPercentage)
    ∧ (∀ (referenceBoat : Boat) (boatDataset : List Boat) (similarityThreshold : ℚ) (limit : ℕ),
       (BoatMatchingUtils.findSimilarBoats referenceBoat boatDataset similarityThreshold
           limit).Pairwise
         fun a b => b.similarityScore ≤ a.similarityScore)
    ∧ ∀ (targetBoat : Boat) (boatPool : List Boat) (config : BoatMatching.BoatMatchingConfig)
        (limit : ℕ) (s : ℤ), boatPool.length ≤ limit →
        (BoatMatching.findSimilarBoats targetBoat boatPool config limit).filter
            (fun sb => sb.matchPercentage = s)
          = (BoatMatching.scoredBoats targetBoat boatPool config).filter
              (fun sb => sb.matchPercentage = s) := by
  refine ⟨fun targetBoat boatPool config limit => ?_,
          fun referenceBoat boatDataset similarityThreshold limit => ?_,
          fun targetBoat boatPool config limit s hlen => ?_⟩
  · rw [BoatMatching.findSimilarBoats]
    by_cases h : boatPool.isEmpty
    · simp [h]
    · rw [if_neg h]
      exact (pairwise_sortDescBy _ _).sublist (List.take_sublist _ _)
  · rw [BoatMatchingUtils.findSimilarBoats]
    exact (pairwise_sortDescBy _ _).sublist (List.take_sublist _ _)
  · rw [BoatMatching.findSimilarBoats]
    by_cases h : boatPool.isEmpty
    · have hempty : boatPool = [] := List.isEmpty_iff.mp h
      subst hempty
      simp [BoatMatching.scoredBoats]
    · rw [if_neg h]
      have hlen2 : (sortDescBy (fun sb => sb.matchPercentage)
          (BoatMatching.scoredBoats targetBoat boatPool config)).length ≤ limit := by
        rw [length_sortDescBy]
        calc (BoatMatching.scoredBoats targetBoat boatPool config).length
            ≤ boatPool.length := by
              rw [BoatMatching.scoredBoats, List.length_map]
              exact List.length_filter_le _ _
          _ ≤ limit := hlen
      rw [List.take_of_length_le hlen2, filter_sortDescBy]

/-- C9 (confirmed): a candidate whose id equals the query's id never appears
in either top-K result, both implementations filter it out of the pool
before scoring. -/
theorem self_exclusion :
    (∀ (targetBoat : Boat) (boatPool : List Boat) (config : BoatMatching.BoatMatchingConfig)
       (limit : ℕ) (sb : BoatMatching.ScoredBoat),
       sb ∈ BoatMatching.findSimilarBoats targetBoat boatPool config limit →
       sb.boat.id ≠ targetBoat.id)
    ∧ ∀ (referenceBoat : Boat) (boatDataset : List Boat) (similarityThreshold : ℚ)
        (limit : ℕ) (r : BoatMatchingUtils.SimilarityResult),
        r ∈ BoatMatchingUtils.findSimilarBoats referenceBoat boatDataset similarityThreshold
            limit →
        r.boat.id ≠ referenceBoat.id := by
  constructor
  · intro targetBoat boatPool config limit sb hmem
    rw [BoatMatching.findSimilarBoats] at hmem
    by_cases h : boatPool.isEmpty
    · rw [if_pos h] at hmem
      exact absurd hmem (List.not_mem_nil sb)
    · rw [if_neg h] at hmem
      have h1 : sb ∈ sortDescBy (fun sb => sb.matchPercentage)
          (BoatMatching.scoredBoats targetBoat boatPool config) :=
        (List.take_sublist _ _).subset hmem
      have h2 : sb ∈ BoatMatching.scoredBoats targetBoat boatPool config :=
        (mem_sortDescBy _ _ _).mp h1
      rw [BoatMatching.scoredBoats] at h2
      rcases List.mem_map.mp h2 with ⟨boat, hboat, rfl⟩
      have := (List.mem_filter.mp hboat).2
      simpa using this
  · intro referenceBoat boatDataset similarityThreshold limit r hmem
    rw [BoatMatchingUtils.findSimilarBoats] at hmem
    have h1 : r ∈ sortDescBy (fun r => r.similarityScore)
        (((boatDataset.filter fun boat => boat.id ≠ referenceBoat.id).map fun boat =>
            (⟨boat, BoatMatchingUtils.calculateBoatSimilarity referenceBoat boat⟩ :
              BoatMatchingUtils.SimilarityResult)).filter
          fun result => result.similarityScore ≥ similarityThreshold) :=
      (List.take_sublist _ _).subset hmem
    have h2 := (mem_sortDescBy _ _ _).mp h1
    have h3 := (List.mem_filter.mp h2).1
    rcases List.mem_map.mp h3 with ⟨boat, hboat, rfl⟩
    have := (List.mem_filter.mp hboat).2
    simpa using this

/-- C5 (witness): the stability clause applied to a concrete two-boat pool
whose length is within the limit. -/
theorem ranking_sorted_and_stable_witness :
    (BoatMatching.findSimilarBoats refBoat [poolB, poolA] BoatMatching.emptyConfig 5).filter
        (fun sb => sb.matchPercentage = 56)
      = (BoatMatching.scoredBoats refBoat [poolB, poolA] BoatMatching.emptyConfig).filter
          (fun sb => sb.matchPercentage = 56) :=
  ranking_sorted_and_stable.2.2 refBoat [poolB, poolA] BoatMatching.emptyConfig 5 56 (by decide)

/-- C9 (witness): with the query's duplicate id present in the pool, the
returned record's id differs from the query's. -/
theorem self_exclusion_witness :
    (⟨poolA, 56⟩ : BoatMatching.ScoredBoat).boat.id ≠ refBoat.id :=
  self_exclusion.1 refBoat [qDup, poolA] BoatMatching.emptyConfig 3 ⟨poolA, 56⟩
    (by with_unfolding_all decide)

/-! Lemmas about the primitive comparators. -/

theorem levenshteinDistance_nil_right (xs : List Char) :
    SimilarityUtils.levenshteinDistance xs [] = xs.length := by
  cases xs <;> simp [SimilarityUtils.levenshteinDistance]

theorem levenshteinDistance_comm : ∀ (xs ys : List Char),
    SimilarityUtils.levenshteinDistance xs ys = SimilarityUtils.levenshteinDistance ys xs
  | [], ys => by
      rw [levenshteinDistance_nil_right]
      simp [SimilarityUtils.levenshteinDistance]
  | x :: xs, [] => by
      rw [levenshteinDistance_nil_right]
      simp [SimilarityUtils.levenshteinDistance]
  | x :: xs, y :: ys => by
      have h1 := levenshteinDistance_comm xs (y :: ys)
      have h2 := levenshteinDistance_comm (x :: xs) ys
      have h3 := levenshteinDistance_comm xs ys
      by_cases h : x = y
      · subst h
        simp [SimilarityUtils.levenshteinDistance, h3]
      · have h' : ¬ y = x := fun he => h he.symm
        simp only [SimilarityUtils.levenshteinDistance, if_neg h, if_neg h', h1, h2, h3]
        omega
termination_by xs ys => xs.length + ys.length
decreasing_by all_goals (simp; try omega)

theorem levenshteinDistance_le_max (xs : List Char) : ∀ (ys : List Char),
    SimilarityUtils.levenshteinDistance xs ys ≤ max xs.length ys.length := by
  induction xs with
  | nil =>
      intro ys
      simp [SimilarityUtils.levenshteinDistance]
  | cons x xs ih =>
      intro ys
      cases ys with
      | nil => simp [levenshteinDistance_nil_right]
      | cons y ys =>
          by_cases h : x = y
          · have := ih ys
            simp only [SimilarityUtils.levenshteinDistance, if_pos h, List.length_cons]
            omega
          · have := ih ys
            simp only [SimilarityUtils.levenshteinDistance, if_neg h, List.length_cons]
            omega

theorem calculateStringSimilarity_comm (str1 str2 : String) :
    SimilarityUtils.calculateStringSimilarity str1 str2
      = SimilarityUtils.calculateStringSimilarity str2 str1 := by
  by_cases h : str1 = str2
  · subst h
    rfl
  · have h' : ¬ str2 = str1 := fun he => h he.symm
    simp only [SimilarityUtils.calculateStringSimilarity, if_neg h, if_neg h',
      levenshteinDistance_comm str1.toLower.toList str2.toLower.toList, Nat.max_comm]

theorem calculateStringSimilarity_nonneg (str1 str2 : String) :
    0 ≤ SimilarityUtils.calculateStringSimilarity str1 str2 := by
  by_cases h : str1 = str2
  · simp [SimilarityUtils.calculateStringSimilarity, h]
  · rw [SimilarityUtils.calculateStringSimilarity, if_neg h]
    show (0:ℚ) ≤ if max str1.toLower.toList.length str2.toLower.toList.length = 0 then 1
      else 1 - (SimilarityUtils.levenshteinDistance str1.toLower.toList str2.toLower.toList : ℚ)
        / (max str1.toLower.toList.length str2.toLower.toList.length : ℕ)
    split
    · norm_num
    · rename_i hm
      have hd := levenshteinDistance_le_max str1.toLower.toList str2.toLower.toList
      have hmpos : 0 < ((max str1.toLower.toList.length str2.toLower.toList.length : ℕ) : ℚ) := by
        have h0 : 0 < max str1.toLower.toList.length str2.toLower.toList.length :=
          Nat.pos_of_ne_zero hm
        exact_mod_cast h0
      have hq : (SimilarityUtils.levenshteinDistance str1.toLower.toList str2.toLower.toList : ℚ)
          / ((max str1.toLower.toList.length str2.toLower.toList.length : ℕ) : ℚ) ≤ 1 := by
        rw [div_le_one hmpos]
        exact_mod_cast hd
      linarith

theorem calculateStringSimilarity_le_one (str1 str2 : String) :
    SimilarityUtils.calculateStringSimilarity str1 str2 ≤ 1 := by
  by_cases h : str1 = str2
  · simp [SimilarityUtils.calculateStringSimilarity, h]
  · rw [SimilarityUtils.calculateStringSimilarity, if_neg h]
    show (if max str1.toLower.toList.length str2.toLower.toList.length = 0 then 1
      else 1 - (SimilarityUtils.levenshteinDistance str1.toLower.toList str2.toLower.toList : ℚ)
        / (max str1.toLower.toList.length str2.toLower.toList.length : ℕ)) ≤ 1
    split
    · norm_num
    · have hq : (0:ℚ) ≤ (SimilarityUtils.levenshteinDistance str1.toLower.toList str2.toLower.toList : ℚ)
          / ((max str1.toLower.toList.length str2.toLower.toList.length : ℕ) : ℚ) := by
        positivity
      linarith

theorem calculateJaccardSimilarity_comm {α : Type} [DecidableEq α] (set1 set2 : List α) :
    SimilarityUtils.calculateJaccardSimilarity set1 set2
      = SimilarityUtils.calculateJaccardSimilarity set2 set1 := by
  rw [SimilarityUtils.calculateJaccardSimilarity, SimilarityUtils.calculateJaccardSimilarity]
  rw [Finset.inter_comm, Finset.union_comm]
  by_cases h1 : set1.toFinset.card = 0 <;> by_cases h2 : set2.toFinset.card = 0 <;>
    simp [h1, h2]

theorem calculateJaccardSimilarity_nonneg {α : Type} [DecidableEq α] (set1 set2 : List α) :
    0 ≤ SimilarityUtils.calculateJaccardSimilarity set1 set2 := by
  rw [SimilarityUtils.calculateJaccardSimilarity]
  split
  · norm_num
  · positivity

theorem calculateJaccardSimilarity_le_one {α : Type} [DecidableEq α] (set1 set2 : List α) :
    SimilarityUtils.calculateJaccardSimilarity set1 set2 ≤ 1 := by
  rw [SimilarityUtils.calculateJaccardSimilarity]
  split
  · norm_num
  · rename_i h
    rw [not_and_or] at h
    have hcard : (set1.toFinset ∩ set2.toFinset).card ≤ (set1.toFinset ∪ set2.toFinset).card :=
      Finset.card_le_card Finset.inter_subset_union
    have hpos : 0 < ((set1.toFinset ∪ set2.toFinset).card : ℚ) := by
      have h0 : 0 < (set1.toFinset ∪ set2.toFinset).card := by
        rcases h with h | h
        · have := Nat.pos_of_ne_zero h
          have hsub : set1.toFinset ⊆ set1.toFinset ∪ set2.toFinset := Finset.subset_union_left
          have := Finset.card_le_card hsub
          omega
        · have := Nat.pos_of_ne_zero h
          have hsub : set2.toFinset ⊆ set1.toFinset ∪ set2.toFinset := Finset.subset_union_right
          have := Finset.card_le_card hsub
          omega
      exact_mod_cast h0
    rw [div_le_one hpos]
    exact_mod_cast hcard

theorem jsMin_comm (a b : ℚ) : jsMin a b = jsMin b a := by
  rw [jsMin, jsMin]
  by_cases h1 : a ≤ b <;> by_cases h2 : b ≤ a <;> simp [h1, h2]
  · exact le_antisymm h1 h2
  · exact absurd (le_of_not_le h1) h2

theorem jsMax_comm (a b : ℚ) : jsMax a b = jsMax b a := by
  rw [jsMax, jsMax]
  by_cases h1 : a ≤ b <;> by_cases h2 : b ≤ a <;> simp [h1, h2]
  · exact le_antisymm h2 h1
  · exact absurd (le_of_not_le h1) h2

theorem jsAbs_sub_comm (a b : ℚ) : jsAbs (a - b) = jsAbs (b - a) := by
  rw [jsAbs, jsAbs]
  split <;> split <;> rename_i ha hb
  · linarith
  · ring
  · ring
  · linarith [le_of_not_lt ha, le_of_not_lt hb]

theorem jsMax_nonneg_left (a : ℚ) (b : ℚ) (h : 0 ≤ a) : 0 ≤ jsMax a b := by
  rw [jsMax]
  split <;> [linarith; exact h]

theorem jsMin_le_left (a b : ℚ) : jsMin a b ≤ a := by
  rw [jsMin]
  split <;> [exact le_refl a; linarith [le_of_not_le (by assumption)]]

theorem dotProduct_comm : ∀ (v1 v2 : List ℝ),
    SimilarityUtils.dotProduct v1 v2 = SimilarityUtils.dotProduct v2 v1
  | [], [] => rfl
  | [], _ :: _ => rfl
  | _ :: _, [] => rfl
  | a :: as, b :: bs => by
      rw [SimilarityUtils.dotProduct, SimilarityUtils.dotProduct, dotProduct_comm as bs,
        mul_comm]

theorem sumSquares_sub_comm : ∀ (v1 v2 : List ℝ),
    SimilarityUtils.sumSquares (List.zipWith (fun a b => a - b) v1 v2)
      = SimilarityUtils.sumSquares (List.zipWith (fun a b => a - b) v2 v1)
  | [], [] => rfl
  | [], _ :: _ => rfl
  | _ :: _, [] => rfl
  | a :: as, b :: bs => by
      rw [List.zipWith_cons_cons, List.zipWith_cons_cons, SimilarityUtils.sumSquares,
        SimilarityUtils.sumSquares, sumSquares_sub_comm as bs]
      ring_nf

theorem calculateCosineSimilarity_comm (v1 v2 : List ℝ) :
    SimilarityUtils.calculateCosineSimilarity v1 v2
      = SimilarityUtils.calculateCosineSimilarity v2 v1 := by
  by_cases h : v1.length = v2.length
  · have h1 : ¬ (v1.length ≠ v2.length) := by simpa using h
    have h2 : ¬ (v2.length ≠ v1.length) := by simp [h]
    simp only [SimilarityUtils.calculateCosineSimilarity, if_neg h1, if_neg h2]
    rw [dotProduct_comm v1 v2,
      mul_comm (Real.sqrt (SimilarityUtils.sumSquares v1)) (Real.sqrt (SimilarityUtils.sumSquares v2))]
    exact if_congr or_comm rfl rfl
  · have h2 : v2.length ≠ v1.length := Ne.symm h
    simp only [SimilarityUtils.calculateCosineSimilarity, if_pos h, if_pos h2]

theorem calculateEuclideanDistance_comm (v1 v2 : List ℝ) :
    SimilarityUtils.calculateEuclideanDistance v1 v2
      = SimilarityUtils.calculateEuclideanDistance v2 v1 := by
  by_cases h : v1.length = v2.length
  · have h1 : ¬ (v1.length ≠ v2.length) := by simpa using h
    have h2 : ¬ (v2.length ≠ v1.length) := by simp [h]
    simp only [SimilarityUtils.calculateEuclideanDistance, if_neg h1, if_neg h2,
      sumSquares_sub_comm]
  · have h2 : v2.length ≠ v1.length := Ne.symm h
    simp only [SimilarityUtils.calculateEuclideanDistance, if_pos h, if_pos h2]

theorem manufacturerTerm_comm (boat1 boat2 : Boat) :
    BoatMatchingUtils.manufacturerTerm boat1 boat2 = BoatMatchingUtils.manufacturerTerm boat2 boat1 := by
  rw [BoatMatchingUtils.manufacturerTerm, BoatMatchingUtils.manufacturerTerm,
    calculateStringSimilarity_comm]
  exact if_congr and_comm rfl rfl

theorem modelTerm_comm (boat1 boat2 : Boat) :
    BoatMatchingUtils.modelTerm boat1 boat2 = BoatMatchingUtils.modelTerm boat2 boat1 := by
  rw [BoatMatchingUtils.modelTerm, BoatMatchingUtils.modelTerm, calculateStringSimilarity_comm]
  exact if_congr and_comm rfl rfl

theorem yearTerm_comm (boat1 boat2 : Boat) :
    BoatMatchingUtils.yearTerm boat1 boat2 = BoatMatchingUtils.yearTerm boat2 boat1 := by
  rw [BoatMatchingUtils.yearTerm, BoatMatchingUtils.yearTerm, jsAbs_sub_comm]
  exact if_congr and_comm rfl rfl

theorem ratioTerm_comm (a b : Option ℚ) :
    BoatMatchingUtils.ratioTerm a b = BoatMatchingUtils.ratioTerm b a := by
  rw [BoatMatchingUtils.ratioTerm, BoatMatchingUtils.ratioTerm, jsMin_comm, jsMax_comm]
  exact if_congr and_comm rfl rfl

theorem calculateDimensionSimilarity_comm (boat1 boat2 : Boat) :
    BoatMatchingUtils.calculateDimensionSimilarity boat1 boat2
      = BoatMatchingUtils.calculateDimensionSimilarity boat2 boat1 := by
  simp only [BoatMatchingUtils.calculateDimensionSimilarity]
  rw [ratioTerm_comm boat1.length boat2.length, ratioTerm_comm boat1.beam boat2.beam,
    ratioTerm_comm boat1.draft boat2.draft, ratioTerm_comm boat1.weight boat2.weight]

theorem dimensionsTerm_comm (boat1 boat2 : Boat) :
    BoatMatchingUtils.dimensionsTerm boat1 boat2 = BoatMatchingUtils.dimensionsTerm boat2 boat1 := by
  rw [BoatMatchingUtils.dimensionsTerm, BoatMatchingUtils.dimensionsTerm,
    calculateDimensionSimilarity_comm]

theorem featuresTerm_comm (boat1 boat2 : Boat) :
    BoatMatchingUtils.featuresTerm boat1 boat2 = BoatMatchingUtils.featuresTerm boat2 boat1 := by
  rw [BoatMatchingUtils.featuresTerm, BoatMatchingUtils.featuresTerm,
    calculateJaccardSimilarity_comm]
  exact if_congr and_comm rfl rfl

theorem categoryTerm_comm (boat1 boat2 : Boat) :
    BoatMatchingUtils.categoryTerm boat1 boat2 = BoatMatchingUtils.categoryTerm boat2 boat1 := by
  rw [BoatMatchingUtils.categoryTerm, BoatMatchingUtils.categoryTerm,
    calculateJaccardSimilarity_comm]
  exact if_congr and_comm rfl rfl

theorem utilsSimilarity_comm (boat1 boat2 : Boat) :
    BoatMatchingUtils.calculateBoatSimilarity boat1 boat2
      = BoatMatchingUtils.calculateBoatSimilarity boat2 boat1 := by
  simp only [BoatMatchingUtils.calculateBoatSimilarity]
  rw [manufacturerTerm_comm, modelTerm_comm, yearTerm_comm, dimensionsTerm_comm,
    featuresTerm_comm, categoryTerm_comm]

/-- C3 (amended): the primitive comparators — Jaccard, Levenshtein string
similarity, cosine and Euclidean distance — and `boat-matching.utils.ts`'s
aggregator are symmetric; `boatMatching.ts`'s aggregator is not (its
substring feature matching and word-overlap name matching count matches of
the first argument's entries only). -/
theorem symmetry_amended :
    (∀ (α : Type) [inst : DecidableEq α] (set1 set2 : List α),
       SimilarityUtils.calculateJaccardSimilarity set1 set2
         = SimilarityUtils.calculateJaccardSimilarity set2 set1)
    ∧ (∀ (str1 str2 : String),
       SimilarityUtils.calculateStringSimilarity str1 str2
         = SimilarityUtils.calculateStringSimilarity str2 str1)
    ∧ (∀ (v1 v2 : List ℝ),
       SimilarityUtils.calculateCosineSimilarity v1 v2
         = SimilarityUtils.calculateCosineSimilarity v2 v1)
    ∧ (∀ (v1 v2 : List ℝ),
       SimilarityUtils.calculateEuclideanDistance v1 v2
         = SimilarityUtils.calculateEuclideanDistance v2 v1)
    ∧ ∀ (boat1 boat2 : Boat),
        BoatMatchingUtils.calculateBoatSimilarity boat1 boat2
          = BoatMatchingUtils.calculateBoatSimilarity boat2 boat1 :=
  ⟨fun _ _ => calculateJaccardSimilarity_comm,
   calculateStringSimilarity_comm,
   calculateCosineSimilarity_comm,
   calculateEuclideanDistance_comm,
   utilsSimilarity_comm⟩

/-- C4 (amended): absent attributes bypass the comparators, but not with the
claimed uncertainty aggregation. In `boatMatching.ts` an absent
length/features/engine-type/hull-material adds `weight/3`, and an absent
name adds `weight/4`, to an unnormalized sum; in `boat-matching.utils.ts` an
absent field contributes nothing at all — neither to the score nor to the
applicable weight. -/
theorem missing_policy_amended :
    (∀ (w : BoatMatching.Weights) (boat1 boat2 : Boat),
       ¬(truthyNum boat1.length ∧ truthyNum boat2.length) →
       BoatMatching.lengthScore w boat1 boat2 = w.lengthWeight / 3)
    ∧ (∀ (w : BoatMatching.Weights) (boat1 boat2 : Boat),
       ¬((boat1.features.getD []).length > 0 ∧ (boat2.features.getD []).length > 0) →
       BoatMatching.featureScore w boat1 boat2 = w.featureWeight / 3)
    ∧ (∀ (w : BoatMatching.Weights) (boat1 boat2 : Boat),
       ¬(truthyStr boat1.engineType ∧ truthyStr boat2.engineType) →
       BoatMatching.engineTypeScore w boat1 boat2 = w.engineTypeWeight / 3)
    ∧ (∀ (w : BoatMatching.Weights) (boat1 boat2 : Boat),
       ¬(truthyStr boat1.hullMaterial ∧ truthyStr boat2.hullMaterial) →
       BoatMatching.hullMaterialScore w boat1 boat2 = w.hullMaterialWeight / 3)
    ∧ (∀ (w : BoatMatching.Weights) (boat1 boat2 : Boat),
       ¬(truthyStr boat1.name ∧ truthyStr boat2.name) →
       BoatMatching.nameScore w boat1 boat2 = w.nameWeight / 4)
    ∧ (∀ (boat1 boat2 : Boat),
       ¬(truthyStr boat1.manufacturer ∧ truthyStr boat2.manufacturer) →
       BoatMatchingUtils.manufacturerTerm boat1 boat2 = (0, 0))
    ∧ (∀ (boat1 boat2 : Boat),
       ¬(truthyStr boat1.model ∧ truthyStr boat2.model) →
       BoatMatchingUtils.modelTerm boat1 boat2 = (0, 0))
    ∧ (∀ (boat1 boat2 : Boat),
       ¬(truthyNum boat1.year ∧ truthyNum boat2.year) →
       BoatMatchingUtils.yearTerm boat1 boat2 = (0, 0))
    ∧ (∀ (boat1 boat2 : Boat),
       ¬(boat1.features.isSome ∧ boat2.features.isSome) →
       BoatMatchingUtils.featuresTerm boat1 boat2 = (0, 0))
    ∧ ∀ (boat1 boat2 : Boat),
        ¬(boat1.categoryTags.isSome ∧ boat2.categoryTags.isSome) →
        BoatMatchingUtils.categoryTerm boat1 boat2 = (0, 0) :=
  ⟨fun w boat1 boat2 h => by rw [BoatMatching.lengthScore, if_neg h],
   fun w boat1 boat2 h => by rw [BoatMatching.featureScore, if_neg h],
   fun w boat1 boat2 h => by rw [BoatMatching.engineTypeScore, if_neg h],
   fun w boat1 boat2 h => by rw [BoatMatching.hullMaterialScore, if_neg h],
   fun w boat1 boat2 h => by rw [BoatMatching.nameScore, if_neg h],
   fun boat1 boat2 h => by rw [BoatMatchingUtils.manufacturerTerm, if_neg h],
   fun boat1 boat2 h => by rw [BoatMatchingUtils.modelTerm, if_neg h],
   fun boat1 boat2 h => by rw [BoatMatchingUtils.yearTerm, if_neg h],
   fun boat1 boat2 h => by rw [BoatMatchingUtils.featuresTerm, if_neg h],
   fun boat1 boat2 h => by rw [BoatMatchingUtils.categoryTerm, if_neg h]⟩

/-- C4 (witness): the absent-length partial score and the utils
absent-features exclusion evaluated on concrete boats with those fields
absent. -/
theorem missing_policy_amended_witness :
    BoatMatching.lengthScore BoatMatching.DEFAULT_WEIGHTS boatM1 boatM2
        = BoatMatching.DEFAULT_WEIGHTS.lengthWeight / 3
      ∧ BoatMatchingUtils.featuresTerm boatM1 boatM2 = (0, 0) :=
  ⟨missing_policy_amended.1 BoatMatching.DEFAULT_WEIGHTS boatM1 boatM2 (by decide),
   missing_policy_amended.2.2.2.2.2.2.2.2.1 boatM1 boatM2 (by decide)⟩

theorem sumSquares_nonneg (v : List ℝ) : 0 ≤ SimilarityUtils.sumSquares v := by
  induction v with
  | nil => simp [SimilarityUtils.sumSquares]
  | cons a as ih =>
      rw [SimilarityUtils.sumSquares]
      nlinarith [mul_self_nonneg a]

theorem sumSquares_eq_zero_of_all_zero {v : List ℝ} (h : ∀ x ∈ v, x = 0) :
    SimilarityUtils.sumSquares v = 0 := by
  induction v with
  | nil => rfl
  | cons a as ih =>
      rw [SimilarityUtils.sumSquares]
      have ha : a = 0 := h a (List.mem_cons_self a as)
      have has : SimilarityUtils.sumSquares as = 0 :=
        ih fun x hx => h x (List.mem_cons_of_mem a hx)
      rw [ha, has]
      ring

/-- C6 (confirmed): every vector comparison — the utility and service
cosines and the two Euclidean distances — fails (throws, modelled as `none`)
on vectors of unequal length, returning no score; nothing is truncated or
padded. -/
theorem dimension_mismatch_fails :
    ∀ (v1 v2 : List ℝ), v1.length ≠ v2.length →
      SimilarityUtils.calculateCosineSimilarity v1 v2 = none
      ∧ SimilarityUtils.calculateEuclideanDistance v1 v2 = none
      ∧ TensorFlowService.calculateCosineSimilarity v1 v2 = none
      ∧ TensorFlowService.calculateEuclideanDistance v1 v2 = none
      ∧ ImageSimilarity.calculateCosineSimilarity v1 v2 = none := by
  intro v1 v2 h
  exact ⟨by rw [SimilarityUtils.calculateCosineSimilarity, if_pos h],
         by rw [SimilarityUtils.calculateEuclideanDistance, if_pos h],
         by rw [TensorFlowService.calculateCosineSimilarity, if_pos h],
         by rw [TensorFlowService.calculateEuclideanDistance, if_pos h],
         by rw [ImageSimilarity.calculateCosineSimilarity, if_pos h]⟩

/-- C6 (witness): the spec's 512- versus 1024-dimensional comparison fails
in every implementation. -/
theorem dimension_mismatch_fails_witness :
    SimilarityUtils.calculateCosineSimilarity (List.replicate 512 (0:ℝ))
        (List.replicate 1024 (0:ℝ)) = none
      ∧ SimilarityUtils.calculateEuclideanDistance (List.replicate 512 (0:ℝ))
          (List.replicate 1024 (0:ℝ)) = none
      ∧ TensorFlowService.calculateCosineSimilarity (List.replicate 512 (0:ℝ))
          (List.replicate 1024 (0:ℝ)) = none
      ∧ TensorFlowService.calculateEuclideanDistance (List.replicate 512 (0:ℝ))
          (List.replicate 1024 (0:ℝ)) = none
      ∧ ImageSimilarity.calculateCosineSimilarity (List.replicate 512 (0:ℝ))
          (List.replicate 1024 (0:ℝ)) = none :=
  dimension_mismatch_fails (List.replicate 512 (0:ℝ)) (List.replicate 1024 (0:ℝ))
    (by simp only [List.length_replicate]; omega)

/-- C10 (confirmed): on equal-length vectors with a zero vector on either
side, every cosine implementation is total and returns 0 — the
zero-magnitude guard fires before the division. -/
theorem zero_magnitude_cosine :
    ∀ (v1 v2 : List ℝ), v1.length = v2.length →
      ((∀ x ∈ v1, x = 0) ∨ (∀ x ∈ v2, x = 0)) →
      SimilarityUtils.calculateCosineSimilarity v1 v2 = some 0
      ∧ TensorFlowService.calculateCosineSimilarity v1 v2 = some 0
      ∧ ImageSimilarity.calculateCosineSimilarity v1 v2 = some 0 := by
  intro v1 v2 hlen hzero
  have hne : ¬ v1.length ≠ v2.length := by simpa using hlen
  have hg : Real.sqrt (SimilarityUtils.sumSquares v1) = 0
      ∨ Real.sqrt (SimilarityUtils.sumSquares v2) = 0 := by
    rcases hzero with h | h
    · exact Or.inl (by rw [sumSquares_eq_zero_of_all_zero h, Real.sqrt_zero])
    · exact Or.inr (by rw [sumSquares_eq_zero_of_all_zero h, Real.sqrt_zero])
  exact ⟨by rw [SimilarityUtils.calculateCosineSimilarity, if_neg hne]; simp only [if_pos hg],
         by rw [TensorFlowService.calculateCosineSimilarity, if_neg hne]; simp only [if_pos hg],
         by rw [ImageSimilarity.calculateCosineSimilarity, if_neg hne]; simp only [if_pos hg]⟩

/-- C10 (witness): the zero vector against `[3, 4]` yields 0 in every
implementation. -/
theorem zero_magnitude_cosine_witness :
    SimilarityUtils.calculateCosineSimilarity [(0:ℝ), 0] [(3:ℝ), 4] = some 0
      ∧ TensorFlowService.calculateCosineSimilarity [(0:ℝ), 0] [(3:ℝ), 4] = some 0
      ∧ ImageSimilarity.calculateCosineSimilarity [(0:ℝ), 0] [(3:ℝ), 4] = some 0 :=
  zero_magnitude_cosine [(0:ℝ), 0] [(3:ℝ), 4] (by simp) (Or.inl (by norm_num))

theorem sqrt_sumSquares_ne_zero {v : List ℝ} (h : SimilarityUtils.sumSquares v ≠ 0) :
    Real.sqrt (SimilarityUtils.sumSquares v) ≠ 0 := by
  have hpos : 0 < SimilarityUtils.sumSquares v := lt_of_le_of_ne (sumSquares_nonneg v) (Ne.symm h)
  exact ne_of_gt (Real.sqrt_pos.mpr hpos)

/-- C7 (counterexample): `calculateCosineSimilarity` of `similarity.utils.ts`
returns the raw cosine −1 on `[1]` versus `[−1]`; the claimed
`(x+1)/2` remapping would return 0. -/
theorem cosine_map_counterexample :
    SimilarityUtils.calculateCosineSimilarity [(1:ℝ)] [(-1:ℝ)] = some (-1)
      ∧ SimilarityUtils.calculateCosineSimilarity [(1:ℝ)] [(-1:ℝ)]
          ≠ some (((-1:ℝ) + 1) / 2) := by
  have h1 : SimilarityUtils.sumSquares [(1:ℝ)] = 1 := by
    norm_num [SimilarityUtils.sumSquares]
  have h2 : SimilarityUtils.sumSquares [(-1:ℝ)] = 1 := by
    norm_num [SimilarityUtils.sumSquares]
  have hd : SimilarityUtils.dotProduct [(1:ℝ)] [(-1:ℝ)] = -1 := by
    norm_num [SimilarityUtils.dotProduct]
  have hv : SimilarityUtils.calculateCosineSimilarity [(1:ℝ)] [(-1:ℝ)] = some (-1) := by
    rw [SimilarityUtils.calculateCosineSimilarity]
    simp only [h1, h2, hd, Real.sqrt_one]
    norm_num
  refine ⟨hv, ?_⟩
  rw [hv]
  intro hcontra
  have := Option.some.inj hcontra
  norm_num at this

/-- C7 (amended): the TensorFlow service's cosine is the standard cosine
remapped from `[−1,1]` to `[0,1]` by `(x+1)/2`; the `similarity.utils.ts`
and image-similarity cosines return the standard cosine unmapped (all on
equal-length vectors of nonzero magnitude). -/
theorem cosine_map_amended :
    ∀ (v1 v2 : List ℝ), v1.length = v2.length →
      SimilarityUtils.sumSquares v1 ≠ 0 → SimilarityUtils.sumSquares v2 ≠ 0 →
      TensorFlowService.calculateCosineSimilarity v1 v2
          = some ((SimilarityUtils.dotProduct v1 v2
              / (Real.sqrt (SimilarityUtils.sumSquares v1)
                  * Real.sqrt (SimilarityUtils.sumSquares v2)) + 1) / 2)
      ∧ SimilarityUtils.calculateCosineSimilarity v1 v2
          = some (SimilarityUtils.dotProduct v1 v2
              / (Real.sqrt (SimilarityUtils.sumSquares v1)
                  * Real.sqrt (SimilarityUtils.sumSquares v2)))
      ∧ ImageSimilarity.calculateCosineSimilarity v1 v2
          = some (SimilarityUtils.dotProduct v1 v2
              / (Real.sqrt (SimilarityUtils.sumSquares v1)
                  * Real.sqrt (SimilarityUtils.sumSquares v2))) := by
  intro v1 v2 hlen h1 h2
  have hne : ¬ v1.length ≠ v2.length := by simpa using hlen
  have hg : ¬ (Real.sqrt (SimilarityUtils.sumSquares v1) = 0
      ∨ Real.sqrt (SimilarityUtils.sumSquares v2) = 0) := by
    rintro (hc | hc)
    · exact sqrt_sumSquares_ne_zero h1 hc
    · exact sqrt_sumSquares_ne_zero h2 hc
  exact ⟨by rw [TensorFlowService.calculateCosineSimilarity, if_neg hne]; simp only [if_neg hg],
         by rw [SimilarityUtils.calculateCosineSimilarity, if_neg hne]; simp only [if_neg hg],
         by rw [ImageSimilarity.calculateCosineSimilarity, if_neg hne]; simp only [if_neg hg]⟩

/-- C7 (witness): the amended statement evaluated on `[1]` versus `[1]`,
whose standard cosine is 1 and whose TensorFlow score is `(1+1)/2 = 1`. -/
theorem cosine_map_amended_witness :
    TensorFlowService.calculateCosineSimilarity [(1:ℝ)] [(1:ℝ)]
      = some ((SimilarityUtils.dotProduct [(1:ℝ)] [(1:ℝ)]
          / (Real.sqrt (SimilarityUtils.sumSquares [(1:ℝ)])
              * Real.sqrt (SimilarityUtils.sumSquares [(1:ℝ)])) + 1) / 2) :=
  (cosine_map_amended [(1:ℝ)] [(1:ℝ)] rfl
    (by norm_num [SimilarityUtils.sumSquares])
    (by norm_num [SimilarityUtils.sumSquares])).1

/-- C2 (counterexample): the `similarity.utils.ts` cosine comparator returns
−1 on `[1]` versus `[−1]`, outside `[0,1]`. -/
theorem range_counterexample :
    SimilarityUtils.calculateCosineSimilarity [(1:ℝ)] [(-1:ℝ)] = some (-1)
      ∧ ¬ ((0:ℝ) ≤ -1) := by
  have h1 : SimilarityUtils.sumSquares [(1:ℝ)] = 1 := by
    norm_num [SimilarityUtils.sumSquares]
  have h2 : SimilarityUtils.sumSquares [(-1:ℝ)] = 1 := by
    norm_num [SimilarityUtils.sumSquares]
  have hd : SimilarityUtils.dotProduct [(1:ℝ)] [(-1:ℝ)] = -1 := by
    norm_num [SimilarityUtils.dotProduct]
  constructor
  · rw [SimilarityUtils.calculateCosineSimilarity]
    simp only [h1, h2, hd, Real.sqrt_one]
    norm_num
  · norm_num

theorem sumSquares_zip_expand (t : ℝ) : ∀ (v1 v2 : List ℝ), v1.length = v2.length →
    SimilarityUtils.sumSquares (List.zipWith (fun a b => a + t * b) v1 v2)
      = SimilarityUtils.sumSquares v1 + 2 * t * SimilarityUtils.dotProduct v1 v2
        + t ^ 2 * SimilarityUtils.sumSquares v2
  | [], [] => by
      intro h
      simp [SimilarityUtils.sumSquares, SimilarityUtils.dotProduct]
  | [], b :: bs => by intro h; simp at h
  | a :: as, [] => by intro h; simp at h
  | a :: as, b :: bs => by
      intro h
      have ih := sumSquares_zip_expand t as bs (by simpa using h)
      simp only [List.zipWith_cons_cons, SimilarityUtils.sumSquares, SimilarityUtils.dotProduct]
      rw [ih]
      ring

theorem dotProduct_sq_le (v1 v2 : List ℝ) (h : v1.length = v2.length) :
    (SimilarityUtils.dotProduct v1 v2) ^ 2
      ≤ SimilarityUtils.sumSquares v1 * SimilarityUtils.sumSquares v2 := by
  by_cases hb : SimilarityUtils.sumSquares v2 = 0
  · by_cases hD : SimilarityUtils.dotProduct v1 v2 = 0
    · rw [hD, hb]
      norm_num
    · exfalso
      have key := sumSquares_nonneg (List.zipWith
        (fun a b => a + (-(SimilarityUtils.sumSquares v1 + 1)
          / (2 * SimilarityUtils.dotProduct v1 v2)) * b) v1 v2)
      rw [sumSquares_zip_expand _ v1 v2 h, hb] at key
      have h2 : 2 * (-(SimilarityUtils.sumSquares v1 + 1)
          / (2 * SimilarityUtils.dotProduct v1 v2)) * SimilarityUtils.dotProduct v1 v2
          = -(SimilarityUtils.sumSquares v1 + 1) := by
        field_simp
        ring
      rw [h2] at key
      nlinarith [key]
  · have hbpos : 0 < SimilarityUtils.sumSquares v2 :=
      lt_of_le_of_ne (sumSquares_nonneg v2) (Ne.symm hb)
    have key := sumSquares_nonneg (List.zipWith
      (fun a b => a + (-(SimilarityUtils.dotProduct v1 v2 / SimilarityUtils.sumSquares v2)) * b)
      v1 v2)
    rw [sumSquares_zip_expand _ v1 v2 h] at key
    have expand : SimilarityUtils.sumSquares v1
        + 2 * (-(SimilarityUtils.dotProduct v1 v2 / SimilarityUtils.sumSquares v2))
            * SimilarityUtils.dotProduct v1 v2
        + (-(SimilarityUtils.dotProduct v1 v2 / SimilarityUtils.sumSquares v2)) ^ 2
            * SimilarityUtils.sumSquares v2
        = SimilarityUtils.sumSquares v1
          - (SimilarityUtils.dotProduct v1 v2) ^ 2 / SimilarityUtils.sumSquares v2 := by
      field_simp
      ring
    rw [expand] at key
    have hdiv : (SimilarityUtils.dotProduct v1 v2) ^ 2 / SimilarityUtils.sumSquares v2
        ≤ SimilarityUtils.sumSquares v1 := by linarith
    have := (div_le_iff hbpos).mp hdiv
    linarith

theorem cosine_in_range (v1 v2 : List ℝ) (c : ℝ)
    (h : SimilarityUtils.calculateCosineSimilarity v1 v2 = some c) : -1 ≤ c ∧ c ≤ 1 := by
  rw [SimilarityUtils.calculateCosineSimilarity] at h
  by_cases hlen : v1.length ≠ v2.length
  · rw [if_pos hlen] at h
    exact absurd h (by simp)
  · rw [if_neg hlen] at h
    push_neg at hlen
    by_cases hg : Real.sqrt (SimilarityUtils.sumSquares v1) = 0
        ∨ Real.sqrt (SimilarityUtils.sumSquares v2) = 0
    · simp only [if_pos hg, Option.some.injEq] at h
      rw [← h]
      norm_num
    · simp only [if_neg hg, Option.some.injEq] at h
      push_neg at hg
      have hm1 : 0 < Real.sqrt (SimilarityUtils.sumSquares v1) :=
        lt_of_le_of_ne (Real.sqrt_nonneg _) (Ne.symm hg.1)
      have hm2 : 0 < Real.sqrt (SimilarityUtils.sumSquares v2) :=
        lt_of_le_of_ne (Real.sqrt_nonneg _) (Ne.symm hg.2)
      have hmm : 0 < Real.sqrt (SimilarityUtils.sumSquares v1)
          * Real.sqrt (SimilarityUtils.sumSquares v2) := mul_pos hm1 hm2
      have hsq : (Real.sqrt (SimilarityUtils.sumSquares v1)
          * Real.sqrt (SimilarityUtils.sumSquares v2)) ^ 2
          = SimilarityUtils.sumSquares v1 * SimilarityUtils.sumSquares v2 := by
        rw [mul_pow, Real.sq_sqrt (sumSquares_nonneg v1), Real.sq_sqrt (sumSquares_nonneg v2)]
      have habs : |SimilarityUtils.dotProduct v1 v2|
          ≤ Real.sqrt (SimilarityUtils.sumSquares v1)
            * Real.sqrt (SimilarityUtils.sumSquares v2) := by
        have h1 : |SimilarityUtils.dotProduct v1 v2|
            = Real.sqrt ((SimilarityUtils.dotProduct v1 v2) ^ 2) :=
          (Real.sqrt_sq_eq_abs _).symm
        rw [h1, ← Real.sqrt_sq hmm.le]
        exact Real.sqrt_le_sqrt (by rw [hsq]; exact dotProduct_sq_le v1 v2 hlen)
      have hcabs : |c| ≤ 1 := by
        rw [← h, abs_div, abs_of_pos hmm]
        rw [div_le_one hmm]
        exact habs
      exact abs_le.mp hcabs

theorem jsAbs_nonneg (a : ℚ) : 0 ≤ jsAbs a := by
  rw [jsAbs]
  split
  · linarith
  · linarith [le_of_not_lt (by assumption : ¬ a < 0)]

theorem le_jsMax_left (a b : ℚ) : a ≤ jsMax a b := by
  rw [jsMax]
  split <;> [assumption; exact le_refl a]

theorem jsMax_le {a b c : ℚ} (h1 : a ≤ c) (h2 : b ≤ c) : jsMax a b ≤ c := by
  rw [jsMax]
  split <;> assumption

theorem jsMin_nonneg {a b : ℚ} (h1 : 0 ≤ a) (h2 : 0 ≤ b) : 0 ≤ jsMin a b := by
  rw [jsMin]
  split <;> assumption

theorem truthyNum_ne_zero {o : Option ℚ} (h : truthyNum o = true) : o.getD 0 ≠ 0 := by
  cases o with
  | none => simp [truthyNum] at h
  | some x => simpa [truthyNum] using h

theorem manufacturerTerm_bounds (boat1 boat2 : Boat) :
    0 ≤ (BoatMatchingUtils.manufacturerTerm boat1 boat2).1
      ∧ (BoatMatchingUtils.manufacturerTerm boat1 boat2).1
          ≤ (BoatMatchingUtils.manufacturerTerm boat1 boat2).2
      ∧ 0 ≤ (BoatMatchingUtils.manufacturerTerm boat1 boat2).2 := by
  rw [BoatMatchingUtils.manufacturerTerm]
  split
  · refine ⟨mul_nonneg (calculateStringSimilarity_nonneg _ _) (by norm_num), ?_, by norm_num⟩
    have hle := calculateStringSimilarity_le_one (boat1.manufacturer.getD "")
      (boat2.manufacturer.getD "")
    show SimilarityUtils.calculateStringSimilarity _ _ * (15/100) ≤ 15/100
    nlinarith
  · norm_num

theorem modelTerm_bounds (boat1 boat2 : Boat) :
    0 ≤ (BoatMatchingUtils.modelTerm boat1 boat2).1
      ∧ (BoatMatchingUtils.modelTerm boat1 boat2).1 ≤ (BoatMatchingUtils.modelTerm boat1 boat2).2
      ∧ 0 ≤ (BoatMatchingUtils.modelTerm boat1 boat2).2 := by
  rw [BoatMatchingUtils.modelTerm]
  split
  · refine ⟨mul_nonneg (calculateStringSimilarity_nonneg _ _) (by norm_num), ?_, by norm_num⟩
    have hle := calculateStringSimilarity_le_one (boat1.model.getD "") (boat2.model.getD "")
    show SimilarityUtils.calculateStringSimilarity _ _ * (20/100) ≤ 20/100
    nlinarith
  · norm_num

theorem yearTerm_bounds (boat1 boat2 : Boat) :
    0 ≤ (BoatMatchingUtils.yearTerm boat1 boat2).1
      ∧ (BoatMatchingUtils.yearTerm boat1 boat2).1 ≤ (BoatMatchingUtils.yearTerm boat1 boat2).2
      ∧ 0 ≤ (BoatMatchingUtils.yearTerm boat1 boat2).2 := by
  rw [BoatMatchingUtils.yearTerm]
  split
  · have h0 : 0 ≤ jsMax 0 (1 - jsAbs (boat1.year.getD 0 - boat2.year.getD 0) / 5) :=
      le_jsMax_left 0 _
    have h1 : jsMax 0 (1 - jsAbs (boat1.year.getD 0 - boat2.year.getD 0) / 5) ≤ 1 := by
      refine jsMax_le (by norm_num) ?_
      have := jsAbs_nonneg (boat1.year.getD 0 - boat2.year.getD 0)
      linarith
    refine ⟨mul_nonneg h0 (by norm_num), ?_, by norm_num⟩
    show jsMax 0 _ * (5/100) ≤ 5/100
    nlinarith
  · norm_num

theorem ratioTerm_bounds (a b : Option ℚ) (ha : 0 ≤ a.getD 0) (hb : 0 ≤ b.getD 0) :
    0 ≤ (BoatMatchingUtils.ratioTerm a b).1
      ∧ (BoatMatchingUtils.ratioTerm a b).1 ≤ ((BoatMatchingUtils.ratioTerm a b).2 : ℚ) := by
  rw [BoatMatchingUtils.ratioTerm]
  split
  · rename_i htr
    have hapos : 0 < a.getD 0 := lt_of_le_of_ne ha (Ne.symm (truthyNum_ne_zero htr.1))
    have hbpos : 0 < b.getD 0 := lt_of_le_of_ne hb (Ne.symm (truthyNum_ne_zero htr.2))
    have hmaxpos : 0 < jsMax (a.getD 0) (b.getD 0) :=
      lt_of_lt_of_le hapos (le_jsMax_left _ _)
    have hminnn : 0 ≤ jsMin (a.getD 0) (b.getD 0) := jsMin_nonneg ha hb
    have hminmax : jsMin (a.getD 0) (b.getD 0) ≤ jsMax (a.getD 0) (b.getD 0) :=
      le_trans (jsMin_le_left _ _) (le_jsMax_left _ _)
    constructor
    · exact div_nonneg hminnn hmaxpos.le
    · show jsMin (a.getD 0) (b.getD 0) / jsMax (a.getD 0) (b.getD 0) ≤ ((1 : ℕ) : ℚ)
      rw [Nat.cast_one, div_le_one hmaxpos]
      exact hminmax
  · norm_num

theorem calculateDimensionSimilarity_bounds (boat1 boat2 : Boat)
    (h1 : nonnegDims boat1) (h2 : nonnegDims boat2) (s : ℚ)
    (hs : BoatMatchingUtils.calculateDimensionSimilarity boat1 boat2 = some s) :
    0 ≤ s ∧ s ≤ 1 := by
  obtain ⟨hl1, hb1, hd1, hw1⟩ := h1
  obtain ⟨hl2, hb2, hd2, hw2⟩ := h2
  have Bl := ratioTerm_bounds boat1.length boat2.length hl1 hl2
  have Bb := ratioTerm_bounds boat1.beam boat2.beam hb1 hb2
  have Bd := ratioTerm_bounds boat1.draft boat2.draft hd1 hd2
  have Bw := ratioTerm_bounds boat1.weight boat2.weight hw1 hw2
  rw [BoatMatchingUtils.calculateDimensionSimilarity] at hs
  set l := BoatMatchingUtils.ratioTerm boat1.length boat2.length with hldef
  set b := BoatMatchingUtils.ratioTerm boat1.beam boat2.beam with hbdef
  set d := BoatMatchingUtils.ratioTerm boat1.draft boat2.draft with hddef
  set w := BoatMatchingUtils.ratioTerm boat1.weight boat2.weight with hwdef
  by_cases hcount : l.2 + b.2 + d.2 + w.2 > 0
  · rw [if_pos hcount, Option.some.injEq] at hs
    have hcpos : (0:ℚ) < ((l.2 + b.2 + d.2 + w.2 : ℕ) : ℚ) := by exact_mod_cast hcount
    have hsum0 : 0 ≤ l.1 + b.1 + d.1 + w.1 := by
      linarith [Bl.1, Bb.1, Bd.1, Bw.1]
    have hsumle : l.1 + b.1 + d.1 + w.1 ≤ ((l.2 + b.2 + d.2 + w.2 : ℕ) : ℚ) := by
      push_cast
      linarith [Bl.2, Bb.2, Bd.2, Bw.2]
    constructor
    · rw [← hs]
      exact div_nonneg hsum0 hcpos.le
    · rw [← hs, div_le_one hcpos]
      exact hsumle
  · rw [if_neg hcount] at hs
    exact absurd hs (by simp)

theorem dimensionsTerm_bounds (boat1 boat2 : Boat)
    (h1 : nonnegDims boat1) (h2 : nonnegDims boat2) :
    0 ≤ (BoatMatchingUtils.dimensionsTerm boat1 boat2).1
      ∧ (BoatMatchingUtils.dimensionsTerm boat1 boat2).1
          ≤ (BoatMatchingUtils.dimensionsTerm boat1 boat2).2
      ∧ 0 ≤ (BoatMatchingUtils.dimensionsTerm boat1 boat2).2 := by
  rw [BoatMatchingUtils.dimensionsTerm]
  split
  · rename_i s hs
    have := calculateDimensionSimilarity_bounds boat1 boat2 h1 h2 s hs
    refine ⟨mul_nonneg this.1 (by norm_num), ?_, by norm_num⟩
    show s * (15/100) ≤ 15/100
    nlinarith [this.2]
  · norm_num

theorem featuresTerm_bounds (boat1 boat2 : Boat) :
    0 ≤ (BoatMatchingUtils.featuresTerm boat1 boat2).1
      ∧ (BoatMatchingUtils.featuresTerm boat1 boat2).1
          ≤ (BoatMatchingUtils.featuresTerm boat1 boat2).2
      ∧ 0 ≤ (BoatMatchingUtils.featuresTerm boat1 boat2).2 := by
  rw [BoatMatchingUtils.featuresTerm]
  split
  · refine ⟨mul_nonneg (calculateJaccardSimilarity_nonneg _ _) (by norm_num), ?_, by norm_num⟩
    have hle := calculateJaccardSimilarity_le_one (boat1.features.getD [])
      (boat2.features.getD [])
    show SimilarityUtils.calculateJaccardSimilarity _ _ * (25/100) ≤ 25/100
    nlinarith
  · norm_num

theorem categoryTerm_bounds (boat1 boat2 : Boat) :
    0 ≤ (BoatMatchingUtils.categoryTerm boat1 boat2).1
      ∧ (BoatMatchingUtils.categoryTerm boat1 boat2).1
          ≤ (BoatMatchingUtils.categoryTerm boat1 boat2).2
      ∧ 0 ≤ (BoatMatchingUtils.categoryTerm boat1 boat2).2 := by
  rw [BoatMatchingUtils.categoryTerm]
  split
  · refine ⟨mul_nonneg (calculateJaccardSimilarity_nonneg _ _) (by norm_num), ?_, by norm_num⟩
    have hle := calculateJaccardSimilarity_le_one (boat1.categoryTags.getD [])
      (boat2.categoryTags.getD [])
    show SimilarityUtils.calculateJaccardSimilarity _ _ * (20/100) ≤ 20/100
    nlinarith
  · norm_num

theorem utilsSimilarity_range (boat1 boat2 : Boat)
    (h1 : nonnegDims boat1) (h2 : nonnegDims boat2) :
    0 ≤ BoatMatchingUtils.calculateBoatSimilarity boat1 boat2
      ∧ BoatMatchingUtils.calculateBoatSimilarity boat1 boat2 ≤ 1 := by
  have Bm := manufacturerTerm_bounds boat1 boat2
  have Bmo := modelTerm_bounds boat1 boat2
  have By := yearTerm_bounds boat1 boat2
  have Bd := dimensionsTerm_bounds boat1 boat2 h1 h2
  have Bf := featuresTerm_bounds boat1 boat2
  have Bc := categoryTerm_bounds boat1 boat2
  rw [BoatMatchingUtils.calculateBoatSimilarity]
  set m := BoatMatchingUtils.manufacturerTerm boat1 boat2
  set mo := BoatMatchingUtils.modelTerm boat1 boat2
  set y := BoatMatchingUtils.yearTerm boat1 boat2
  set d := BoatMatchingUtils.dimensionsTerm boat1 boat2
  set f := BoatMatchingUtils.featuresTerm boat1 boat2
  set c := BoatMatchingUtils.categoryTerm boat1 boat2
  by_cases hw : m.2 + mo.2 + y.2 + d.2 + f.2 + c.2 > 0
  · rw [if_pos hw]
    constructor
    · refine div_nonneg ?_ hw.le
      linarith [Bm.1, Bmo.1, By.1, Bd.1, Bf.1, Bc.1]
    · rw [div_le_one hw]
      linarith [Bm.2.1, Bmo.2.1, By.2.1, Bd.2.1, Bf.2.1, Bc.2.1]
  · rw [if_neg hw]
    norm_num

theorem clampSimilarity_range (boat1 boat2 : Boat) (config : BoatMatching.BoatMatchingConfig) :
    0 ≤ BoatMatching.calculateBoatSimilarity boat1 boat2 config
      ∧ BoatMatching.calculateBoatSimilarity boat1 boat2 config ≤ 1 := by
  rw [BoatMatching.calculateBoatSimilarity]
  constructor
  · exact le_jsMax_left 0 _
  · exact jsMax_le (by norm_num) (jsMin_le_left 1 _)

/-- C2 (amended): the set (Jaccard), text (Levenshtein) comparators and both
aggregators return scores in `[0,1]` (the `boat-matching.utils.ts` aggregator
under nonnegative dimensions, which JavaScript truthiness does not enforce);
the raw cosine of `similarity.utils.ts` is only bounded by `[−1,1]` and can
be negative. -/
theorem range_amended :
    (∀ (α : Type) [inst : DecidableEq α] (set1 set2 : List α),
       0 ≤ SimilarityUtils.calculateJaccardSimilarity set1 set2
         ∧ SimilarityUtils.calculateJaccardSimilarity set1 set2 ≤ 1)
    ∧ (∀ (str1 str2 : String),
       0 ≤ SimilarityUtils.calculateStringSimilarity str1 str2
         ∧ SimilarityUtils.calculateStringSimilarity str1 str2 ≤ 1)
    ∧ (∀ (boat1 boat2 : Boat) (config : BoatMatching.BoatMatchingConfig),
       0 ≤ BoatMatching.calculateBoatSimilarity boat1 boat2 config
         ∧ BoatMatching.calculateBoatSimilarity boat1 boat2 config ≤ 1)
    ∧ (∀ (v1 v2 : List ℝ) (c : ℝ),
       SimilarityUtils.calculateCosineSimilarity v1 v2 = some c → -1 ≤ c ∧ c ≤ 1)
    ∧ ∀ (boat1 boat2 : Boat), nonnegDims boat1 → nonnegDims boat2 →
        0 ≤ BoatMatchingUtils.calculateBoatSimilarity boat1 boat2
          ∧ BoatMatchingUtils.calculateBoatSimilarity boat1 boat2 ≤ 1 :=
  ⟨fun _ _ set1 set2 =>
     ⟨calculateJaccardSimilarity_nonneg set1 set2, calculateJaccardSimilarity_le_one set1 set2⟩,
   fun str1 str2 =>
     ⟨calculateStringSimilarity_nonneg str1 str2, calculateStringSimilarity_le_one str1 str2⟩,
   clampSimilarity_range,
   cosine_in_range,
   utilsSimilarity_range⟩

/-- C2 (witness): the bounded-cosine clause applied to the concrete
evaluation on `[1]` and `[1]`, and the utils aggregator range applied to the
manufacturer-only boats (whose absent dimensions are trivially
nonnegative). -/
theorem range_amended_witness :
    ((-1 : ℝ) ≤ 1 ∧ (1 : ℝ) ≤ 1)
      ∧ (0 ≤ BoatMatchingUtils.calculateBoatSimilarity boatM1 boatM2
          ∧ BoatMatchingUtils.calculateBoatSimilarity boatM1 boatM2 ≤ 1) :=
  ⟨range_amended.2.2.2.1 [(1:ℝ)] [(1:ℝ)] 1
     (by
       rw [SimilarityUtils.calculateCosineSimilarity]
       have h1 : SimilarityUtils.sumSquares [(1:ℝ)] = 1 := by
         norm_num [SimilarityUtils.sumSquares]
       have hd : SimilarityUtils.dotProduct [(1:ℝ)] [(1:ℝ)] = 1 := by
         norm_num [SimilarityUtils.dotProduct]
       simp only [h1, hd, Real.sqrt_one]
       norm_num),
   range_amended.2.2.2.2 boatM1 boatM2 (by norm_num [nonnegDims, boatM1, blankBoat])
     (by norm_num [nonnegDims, boatM2, blankBoat])⟩
